import Mathlib

/-!
Verification of the ORBIS personal-finance core: a shallow embedding of the
analytics, insight, import and storage logic, with amounts modelled as
rationals, calendar dates as explicit year/month/day records and timestamps
as integer milliseconds.
-/

namespace Orbis

/-- The two transaction kinds of the data model (`types.ts`). -/
inductive TxType where
  | income
  | expense
deriving DecidableEq, Repr

/-- Recurrence flag of a transaction (`types.ts`). -/
inductive Recurrence where
  | unique
  | monthly
  | yearly
deriving DecidableEq, Repr

/-- A calendar date, the model of a `dateISO` string at day granularity. -/
structure CalDate where
  year : Int
  month : Nat
  day : Nat
deriving DecidableEq, Repr

/-- The month index of a date: months since year 0, the model of the
year/month comparison performed by the date library `isSameMonth`. -/
def CalDate.mIdx (d : CalDate) : Int :=
  d.year * 12 + ((d.month : Int) - 1)

/-- The `Transaction` record of `types.ts`. -/
structure Transaction where
  id : String
  amount : Rat
  date : CalDate
  categoryId : String
  description : String
  type : TxType
  recurrence : Option Recurrence
  createdAt : Int
  importBatchId : Option String
  isImported : Option Bool
  originalDescription : Option String
deriving DecidableEq, Repr

/-- Patrimony movement kind (`types.ts`). -/
inductive PatType where
  | deposit
  | withdraw
deriving DecidableEq, Repr

/-- The `PatrimonyTransaction` record of `types.ts`. -/
structure PatrimonyTransaction where
  id : String
  amount : Rat
  type : PatType
  date : CalDate
  description : Option String
  createdAt : Int
deriving DecidableEq, Repr

/-- Category kind (`types.ts`). -/
inductive CatType where
  | income
  | expense
  | both
deriving DecidableEq, Repr

/-- The `Category` record of `types.ts`. -/
structure Category where
  id : String
  name : String
  type : CatType
  color : Option String
deriving DecidableEq, Repr

/-- The `ImportBatch` record of `types.ts`. -/
structure ImportBatch where
  id : String
  fileName : String
  date : String
  count : Nat
  totalAmount : Rat
deriving DecidableEq, Repr

/-- The persisted application state: the four lists the storage layer keeps. -/
structure AppState where
  transactions : List Transaction
  patrimony : List PatrimonyTransaction
  categories : List Category
  batches : List ImportBatch
deriving DecidableEq, Repr

/-! ## PatrimonyService and AnalyticsService.getSummary -/

/-- `PatrimonyService.calculateTotal` (`storage.ts`): deposits minus
withdrawals, folded left with accumulator 0. -/
def calculateTotal (ts : List PatrimonyTransaction) : Rat :=
  ts.foldl
    (fun acc t =>
      match t.type with
      | .deposit => acc + t.amount
      | .withdraw => acc - t.amount) 0

/-- The `SummaryStats` record of `types.ts` (numeric fields only). -/
structure SummaryStats where
  balance : Rat
  availableCash : Rat
  patrimonyTotal : Rat
  totalIncome : Rat
  totalExpense : Rat
  fixedBase : Rat
  savingsRate : Rat
deriving DecidableEq, Repr

/-- `AnalyticsService.getSummary` (`analytics.ts`). -/
def getSummary (transactions : List Transaction)
    (patrimonyTransactions : List PatrimonyTransaction) : SummaryStats :=
  let totalIncome :=
    ((transactions.filter (fun t => t.type == TxType.income)).map (·.amount)).sum
  let totalExpense :=
    ((transactions.filter (fun t => t.type == TxType.expense)).map (·.amount)).sum
  let balance := totalIncome - totalExpense
  let patrimonyTotal := calculateTotal patrimonyTransactions
  let availableCash := balance - patrimonyTotal
  let savingsRate :=
    if 0 < totalIncome then (totalIncome - totalExpense) / totalIncome * 100 else 0
  let fixedBase :=
    (transactions.filter
      (fun t => t.type == TxType.expense &&
        (t.recurrence == some Recurrence.monthly || t.recurrence == some Recurrence.yearly))).foldl
      (fun acc t =>
        match t.recurrence with
        | some .monthly => acc + t.amount
        | some .yearly => acc + t.amount / 12
        | _ => acc) 0
  { balance := balance
    availableCash := availableCash
    patrimonyTotal := patrimonyTotal
    totalIncome := totalIncome
    totalExpense := totalExpense
    fixedBase := fixedBase
    savingsRate := savingsRate }

/-! ## Batch deletion (`handleDeleteImportBatch` in the application root) -/

/-- `handleDeleteImportBatch` (App root component): drop every transaction
whose `importBatchId` equals the batch id and drop the batch record itself;
patrimony and categories are untouched. -/
def handleDeleteImportBatch (batchId : String) (st : AppState) : AppState :=
  { st with
    transactions := st.transactions.filter (fun t => !(t.importBatchId == some batchId))
    batches := st.batches.filter (fun b => !(b.id == batchId)) }

/-! ## Import commit (`handleImportTransactions` in the application root) -/

/-- A committed-but-unstamped transaction: the `Omit Transaction createdAt`
shape handed from the import review screen to the application root. -/
structure PendingTransaction where
  id : String
  amount : Rat
  date : CalDate
  categoryId : String
  description : String
  type : TxType
  recurrence : Option Recurrence
  importBatchId : Option String
  isImported : Option Bool
  originalDescription : Option String
deriving DecidableEq, Repr

/-- Stamping a pending transaction with a creation timestamp, the model of
the spread `\x7b...t, createdAt: now\x7d`. -/
def PendingTransaction.stamp (now : Int) (t : PendingTransaction) : Transaction :=
  { id := t.id
    amount := t.amount
    date := t.date
    categoryId := t.categoryId
    description := t.description
    type := t.type
    recurrence := t.recurrence
    createdAt := now
    importBatchId := t.importBatchId
    isImported := t.isImported
    originalDescription := t.originalDescription }

/-- `handleImportTransactions` (App root component): stamp every new
transaction with the same timestamp, append them to the transaction list and
append the batch record to the batch list. -/
def handleImportTransactions (now : Int) (newTransactions : List PendingTransaction)
    (batch : ImportBatch) (st : AppState) : AppState :=
  { st with
    transactions := st.transactions ++ newTransactions.map (PendingTransaction.stamp now)
    batches := st.batches ++ [batch] }

/-! ## Import finalization (`handleFinalizeImport` in `ImportManager.tsx`) -/

/-- The `ParsedRawTransaction` shape produced by the statement parser
(`import` service). -/
structure ParsedRawTransaction where
  id : String
  date : CalDate
  description : String
  amount : Rat
  type : TxType
  categoryId : String
deriving DecidableEq, Repr

/-- `handleFinalizeImport` (`ImportManager.tsx`): build the batch record and
the committed transaction list from the reviewed candidates; the fresh batch
id, the file name, the commit date and the per-row fresh ids are passed in
as parameters standing for the runtime-generated values. Returns `none`
when the candidate list is empty, matching the early return. -/
def handleFinalizeImport (batchId fileName dateStr : String) (txId : Nat → String)
    (parsedData : List ParsedRawTransaction) :
    Option (List PendingTransaction × ImportBatch) :=
  if parsedData.length = 0 then none
  else
    let batchInfo : ImportBatch :=
      { id := batchId
        fileName := fileName
        date := dateStr
        count := parsedData.length
        totalAmount := parsedData.foldl (fun acc curr => acc + curr.amount) 0 }
    let newTransactions : List PendingTransaction :=
      parsedData.enum.map (fun p =>
        { id := txId p.1
          description := p.2.description
          amount := p.2.amount
          type := p.2.type
          date := p.2.date
          categoryId := if p.2.categoryId = "" then "cat_10" else p.2.categoryId
          importBatchId := some batchId
          isImported := some true
          originalDescription := some p.2.description
          recurrence := some Recurrence.unique })
    some (newTransactions, batchInfo)

/-! ## Backup import (`StorageService.importData` in `storage.ts`) -/

/-- The parsed backup document: `none` in a field models a value that is
missing or fails the corresponding array check. -/
structure BackupDoc where
  app : Option String
  transactions : Option (List Transaction)
  patrimony : Option (List PatrimonyTransaction)
  batches : Option (List ImportBatch)
  categories : Option (List Category)
deriving DecidableEq, Repr

/-- The seeded default category list of `storage.ts`. -/
def DEFAULT_CATEGORIES : List Category :=
  [ { id := "cat_1", name := "Salário", type := .income, color := some "#8AFFC1" },
    { id := "cat_2", name := "Freelance", type := .income, color := some "#4ADE80" },
    { id := "cat_3", name := "Investimentos", type := .income, color := some "#60A5FA" },
    { id := "cat_4", name := "Alimentação", type := .expense, color := some "#FF8A8A" },
    { id := "cat_5", name := "Moradia", type := .expense, color := some "#F87171" },
    { id := "cat_6", name := "Transporte", type := .expense, color := some "#FBBF24" },
    { id := "cat_7", name := "Lazer", type := .expense, color := some "#A78BFA" },
    { id := "cat_8", name := "Saúde", type := .expense, color := some "#34D399" },
    { id := "cat_9", name := "Educação", type := .expense, color := some "#60A5FA" },
    { id := "cat_11", name := "Assinaturas", type := .expense, color := some "#C084FC" },
    { id := "cat_10", name := "Outros", type := .both, color := some "#9AA0C3" } ]

/-- `StorageService.importData` (`storage.ts`) in state-passing form: the
result is the error message (if any) together with the persisted state after
the call. The marker and transactions-array checks run before any write, so
the rejecting branch returns the incoming state untouched. -/
def importData (doc : BackupDoc) (st : AppState) : Option String × AppState :=
  match doc.transactions, doc.app with
  | some txs, some marker =>
      if marker = "ORBIS" then
        (none,
          { transactions := txs
            patrimony := doc.patrimony.getD st.patrimony
            batches := doc.batches.getD st.batches
            categories := doc.categories.getD DEFAULT_CATEGORIES })
      else (some "Invalid format", st)
  | _, _ => (some "Invalid format", st)

/-! ## CSV amount parsing (`ImportService.parseCSV` in the import service) -/

/-- The characters the amount cleaner keeps: digits, dot, comma, minus. -/
def isAmountChar (c : Char) : Bool :=
  c.isDigit || c == '.' || c == ',' || c == '-'

/-- `String.prototype.replace` with a plain (non-global) pattern: replace
only the first occurrence. -/
def replaceFirst (target repl : Char) : List Char → List Char
  | [] => []
  | c :: cs => if c == target then repl :: cs else c :: replaceFirst target repl cs

/-- `String.prototype.lastIndexOf` for a single character, `-1` if absent. -/
def lastIndexOf (c : Char) (l : List Char) : Int :=
  match l.reverse.findIdx? (fun x => x == c) with
  | none => -1
  | some i => (l.length : Int) - 1 - (i : Int)

/-- The amount-cleaning step of `ImportService.parseCSV`: keep only amount
characters; with both separators present, a rightmost comma removes every
dot and turns the first comma into a dot, while a rightmost dot leaves the
string as is; with only commas, the first comma becomes a dot. -/
def cleanAmount (s : List Char) : List Char :=
  let filtered := s.filter isAmountChar
  if filtered.contains ',' && filtered.contains '.' then
    if lastIndexOf '.' filtered < lastIndexOf ',' filtered then
      replaceFirst ',' '.' (filtered.filter (fun c => !(c == '.')))
    else filtered
  else if filtered.contains ',' then replaceFirst ',' '.' filtered
  else filtered

/-- Digit run to a natural number, most significant first. -/
def digitsToNat (l : List Char) : Nat :=
  l.foldl (fun a c => a * 10 + (c.toNat - 48)) 0

/-- JavaScript `parseFloat` restricted to the character set the cleaner can
produce: an optional sign, then the longest prefix of digits, an optional
dot and further digits; everything after the first unusable character is
ignored; `none` models `NaN`. -/
def jsParseFloat (l : List Char) : Option Rat :=
  let signRest : Bool × List Char :=
    match l with
    | '-' :: r => (true, r)
    | '+' :: r => (false, r)
    | r => (false, r)
  let intDigits := signRest.2.takeWhile (·.isDigit)
  let rest2 := signRest.2.dropWhile (·.isDigit)
  let fracDigits : List Char :=
    match rest2 with
    | '.' :: r2 => r2.takeWhile (·.isDigit)
    | _ => []
  if intDigits.isEmpty && fracDigits.isEmpty then none
  else
    let mag : Rat := (digitsToNat intDigits : Rat)
      + (digitsToNat fracDigits : Rat) / ((10 : Rat) ^ fracDigits.length)
    some (if signRest.1 then -mag else mag)

/-- The amount pipeline of one CSV row: clean, then `parseFloat`. -/
def parseCSVAmount (s : String) : Option Rat :=
  jsParseFloat (cleanAmount s.data)

/-! ## Category suggestion (`InsightService.suggestCategory` in `insights.ts`) -/

/-- Needle-at-front test over character lists. -/
def startsWithList : List Char → List Char → Bool
  | [], _ => true
  | _ :: _, [] => false
  | n :: ns, h :: hs => n == h && startsWithList ns hs

/-- Substring test over character lists, the model of
`String.prototype.includes`. -/
def containsList (needle : List Char) : List Char → Bool
  | [] => needle.isEmpty
  | c :: hs => startsWithList needle (c :: hs) || containsList needle hs

/-- `String.prototype.trim` over character lists: drop whitespace at both
ends. -/
def trimList (l : List Char) : List Char :=
  (((l.dropWhile (·.isWhitespace)).reverse.dropWhile (·.isWhitespace)).reverse)

/-- `String.prototype.toLowerCase` over character lists. -/
def toLowerList (l : List Char) : List Char :=
  l.map Char.toLower

/-- The keyword dictionary of `insights.ts`, in source insertion order. -/
def KEYWORD_MAP : List (String × List String) :=
  [ ("cat_4", ["mercado", "supermercado", "açougue", "padaria", "ifood",
      "restaurante", "burger", "pizza", "lanche", "almoço", "jantar", "cafe",
      "assai", "carrefour", "pão"]),
    ("cat_6", ["uber", "99", "taxi", "onibus", "metro", "posto", "gasolina",
      "abastecimento", "estacionamento", "pedagio", "ipva", "mechanico"]),
    ("cat_11", ["netflix", "spotify", "prime", "disney", "hbo", "globo",
      "youtube", "apple", "google", "aws", "chatgpt", "tv", "assinatura",
      "cloud"]),
    ("cat_8", ["farmacia", "drogaria", "medico", "consulta", "exame",
      "laboratorio", "dentista", "psicologo", "hospital", "remedio"]),
    ("cat_5", ["aluguel", "condominio", "luz", "agua", "energia", "enel",
      "internet", "vivo", "claro", "tim", "oi", "net", "manutenção", "casa"]),
    ("cat_7", ["cinema", "ingresso", "show", "teatro", "bar", "cerveja",
      "steam", "playstation", "xbox", "jogo", "viagem", "hotel"]),
    ("cat_9", ["curso", "faculdade", "escola", "mensalidade", "livro",
      "papelaria", "udemy", "alura", "ingles"]),
    ("cat_3", ["investimento", "cdb", "fii", "ação", "tesouro", "bitcoin",
      "crypto", "corretora"]),
    ("cat_1", ["salario", "pagamento", "remuneração", "empresa"]) ]

/-- The stable in-place sort `transactions.sort((a, b) => b.createdAt -
a.createdAt)`: descending by `createdAt`, ties keeping source order. -/
def sortByCreatedAtDesc (l : List Transaction) : List Transaction :=
  List.insertionSort (fun a b => b.createdAt ≤ a.createdAt) l

/-- `InsightService.suggestCategory` (`insights.ts`) with the aliasing made
explicit: the result is the suggestion together with the content of the
caller-provided array after the call. The array is sorted in place before
the history scan, so whenever the trimmed lowercased term reaches length 3
the post-call array is the sorted one. -/
def suggestCategoryRun (description : String) (transactions : List Transaction) :
    Option String × List Transaction :=
  let term := toLowerList (trimList description.data)
  if term.length < 3 then (none, transactions)
  else
    let sorted := sortByCreatedAtDesc transactions
    let result : Option String :=
      match sorted.find? (fun t =>
          containsList term (toLowerList t.description.data) ||
          containsList (toLowerList t.description.data) term) with
      | some t => some t.categoryId
      | none =>
          match KEYWORD_MAP.find? (fun kv =>
              kv.2.any (fun k => containsList k.data term)) with
          | some kv => some kv.1
          | none => none
    (result, sorted)

/-- The current date of the concrete fixtures: 2024-05-10. -/
def nowMay : CalDate := { year := 2024, month := 5, day := 10 }

/-- A current-month expense of the fixtures. -/
def expenseNow : Transaction :=
  { id := "e1", amount := 1000, date := { year := 2024, month := 5, day := 3 },
    categoryId := "cat_4", description := "mercado", type := .expense,
    recurrence := none, createdAt := 0, importBatchId := none,
    isImported := none, originalDescription := none }

/-- A previous-month expense of the fixtures. -/
def expensePrev : Transaction :=
  { id := "e2", amount := 100, date := { year := 2024, month := 4, day := 20 },
    categoryId := "cat_4", description := "mercado", type := .expense,
    recurrence := none, createdAt := 0, importBatchId := none,
    isImported := none, originalDescription := none }

/-- A current-month patrimony deposit of the fixtures. -/
def depositNow : PatrimonyTransaction :=
  { id := "p1", amount := 50, type := .deposit,
    date := { year := 2024, month := 5, day := 2 }, description := none,
    createdAt := 0 }

/-- A transaction dated exactly on the boundary day of a 5-day window
ending 2024-03-10. -/
def txBoundary : Transaction :=
  { id := "b", amount := 10, date := { year := 2024, month := 3, day := 5 },
    categoryId := "c", description := "d", type := .expense,
    recurrence := none, createdAt := 0, importBatchId := none,
    isImported := none, originalDescription := none }

/-- A transaction dated the day after the boundary day. -/
def txDayAfter : Transaction :=
  { id := "b2", amount := 10, date := { year := 2024, month := 3, day := 6 },
    categoryId := "c", description := "d", type := .expense,
    recurrence := none, createdAt := 0, importBatchId := none,
    isImported := none, originalDescription := none }

/-- A first history entry, created before `txLater`. -/
def txEarlier : Transaction :=
  { id := "a", amount := 1, date := { year := 2024, month := 1, day := 1 },
    categoryId := "cat_4", description := "abc", type := .expense,
    recurrence := none, createdAt := 1, importBatchId := none,
    isImported := none, originalDescription := none }

/-- A second history entry, created after `txEarlier` but stored after it. -/
def txLater : Transaction :=
  { id := "b", amount := 2, date := { year := 2024, month := 1, day := 2 },
    categoryId := "cat_5", description := "zzz", type := .expense,
    recurrence := none, createdAt := 2, importBatchId := none,
    isImported := none, originalDescription := none }

/-! ## Calendar helpers -/

/-- Gregorian leap-year test. -/
def isLeapYear (y : Int) : Bool :=
  (y % 4 == 0 && y % 100 != 0) || y % 400 == 0

/-- Number of days of a month, the model of the date library
`getDaysInMonth`. -/
def daysInMonth (y : Int) (m : Nat) : Nat :=
  if m = 2 then (if isLeapYear y then 29 else 28)
  else if m = 4 ∨ m = 6 ∨ m = 9 ∨ m = 11 then 30
  else 31

/-- Days since the civil epoch 1970-01-01, the standard civil-calendar day
count with truncating integer division as in the source runtime. -/
def civilDays (d : CalDate) : Int :=
  let y := if d.month ≤ 2 then d.year - 1 else d.year
  let era := (if 0 ≤ y then y else y - 399) / 400
  let yoe := y - era * 400
  let mp := ((d.month : Int) + 9) % 12
  let doy := (153 * mp + 2) / 5 + ((d.day : Int) - 1)
  let doe := yoe * 365 + yoe / 4 - yoe / 100 + doy
  era * 146097 + doe - 719468

/-- The midnight timestamp in milliseconds of a transaction date, the model
of `parseISO(t.dateISO).getTime()` for a day-granularity ISO string. -/
def txTimeMs (t : Transaction) : Int :=
  civilDays t.date * 86400000

/-! ## Insight-engine quantities (`InsightService.getSmartInsight`) -/

/-- Expense total of the current month. -/
def currentMonthExpenses (now : CalDate) (transactions : List Transaction) : Rat :=
  ((transactions.filter (fun t =>
      t.type == TxType.expense && t.date.mIdx == now.mIdx)).map (·.amount)).sum

/-- Expense total of the month `i` months before the current one. -/
def monthExpenses (now : CalDate) (transactions : List Transaction) (i : Nat) : Rat :=
  ((transactions.filter (fun t =>
      t.type == TxType.expense && t.date.mIdx == now.mIdx - (i : Int))).map (·.amount)).sum

/-- How many of the three preceding months had a positive expense total. -/
def histMonthsCount (now : CalDate) (transactions : List Transaction) : Nat :=
  (([1, 2, 3] : List Nat).filter
    (fun i => decide (0 < monthExpenses now transactions i))).length

/-- Total expense over the qualifying preceding months. -/
def historicalTotal (now : CalDate) (transactions : List Transaction) : Rat :=
  ((([1, 2, 3] : List Nat).filter
    (fun i => decide (0 < monthExpenses now transactions i))).map
      (monthExpenses now transactions)).sum

/-- The zero-skip 3-month expense average of `getSmartInsight`. -/
def averageMonthly (now : CalDate) (transactions : List Transaction) : Rat :=
  if 0 < histMonthsCount now transactions then
    historicalTotal now transactions / (histMonthsCount now transactions : Rat)
  else 0

/-- The linear day projection of the current-month expense total. -/
def projection (now : CalDate) (transactions : List Transaction) : Rat :=
  if 2 < now.day then
    (currentMonthExpenses now transactions / (now.day : Rat))
      * (daysInMonth now.year now.month : Rat)
  else currentMonthExpenses now transactions

/-- The stable daily average: the monthly average over 30, or the projection
over 30 with a floor of 1 when that is zero. -/
def stableDailyAvg (now : CalDate) (transactions : List Transaction) : Rat :=
  if 0 < averageMonthly now transactions then averageMonthly now transactions / 30
  else if projection now transactions / 30 = 0 then 1
  else projection now transactions / 30

/-- Patrimony deposits of the current month. -/
def patrimonyDeposits (now : CalDate)
    (patrimonyTransactions : List PatrimonyTransaction) : Rat :=
  ((patrimonyTransactions.filter (fun p =>
      p.type == PatType.deposit && p.date.mIdx == now.mIdx)).map (·.amount)).sum

/-- JavaScript `Math.round`: floor of the value plus one half. -/
def jsRound (q : Rat) : Int :=
  ⌊q + 1 / 2⌋

/-- Insight status values of `getSmartInsight`. -/
inductive InsightStatus where
  | good
  | neutral
  | warning
deriving DecidableEq, Repr

/-- The insight payload returned by `getSmartInsight`. -/
structure Insight where
  text : String
  status : InsightStatus
deriving DecidableEq, Repr

/-- `InsightService.getSmartInsight` (`insights.ts`): the strict priority
cascade. The daily tip (storage-and-randomness backed) and the currency
formatter are passed as environment parameters. -/
def getSmartInsight (dailyTip : String) (formatBRL : Rat → String) (now : CalDate)
    (transactions : List Transaction)
    (patrimonyTransactions : List PatrimonyTransaction) : Insight :=
  let avg := averageMonthly now transactions
  let proj := projection now transactions
  if 0 < avg ∧ avg * 1.2 < proj then
    { text := "Seus gastos estão "
        ++ toString (jsRound ((proj / avg - 1) * 100))
        ++ "% acima da média habitual."
      status := .warning }
  else
    let sda := stableDailyAvg now transactions
    let ruleB : Option Insight :=
      if 5 < sda then
        let threshold := sda * 0.12
        let smalls := (transactions.filter (fun t =>
            t.type == TxType.expense && t.date.mIdx == now.mIdx)).filter
          (fun t => decide (t.amount ≤ threshold))
        let cats := (smalls.map (·.categoryId)).dedup
        let qual := cats.filter
          (fun c => decide (4 ≤ (smalls.filter (fun t => t.categoryId == c)).length))
        let invisibleTotal := (qual.map (fun c =>
            ((smalls.filter (fun t => t.categoryId == c)).map (·.amount)).sum)).sum
        if qual ≠ [] ∧ sda * 0.5 < invisibleTotal then
          some { text := "Pequenos gastos recorrentes somam "
                    ++ formatBRL invisibleTotal ++ "/mês."
                 status := .neutral }
        else none
      else none
    match ruleB with
    | some r => r
    | none =>
      if 0 < patrimonyDeposits now patrimonyTransactions
          ∧ (avg = 0 ∨ proj ≤ avg * 1.1) then
        { text := "Seu patrimônio cresceu neste período. A constância é o segredo."
          status := .good }
      else if 0 < avg ∧ proj < avg * 0.85 ∧ 5 < now.day then
        { text := "Controle exemplar. Gastos "
            ++ toString (jsRound ((1 - proj / avg) * 100))
            ++ "% menores que a média histórica."
          status := .good }
      else { text := dailyTip, status := .neutral }

/-! ## Month-end forecast -/

/-- Forecast reliability flag. -/
inductive Reliability where
  | low
  | high
deriving DecidableEq, Repr

/-- The forecast record surfaced to the dashboard forecast card. -/
structure MonthForecast where
  projectedBalance : Rat
  remainingIncome : Rat
  remainingExpense : Rat
  isPositive : Bool
  reliability : Reliability
deriving DecidableEq, Repr

/-- Income total of the month `i` months before the current one. -/
def monthIncomes (now : CalDate) (transactions : List Transaction) (i : Nat) : Rat :=
  ((transactions.filter (fun t =>
      t.type == TxType.income && t.date.mIdx == now.mIdx - (i : Int))).map (·.amount)).sum

/-- The zero-skip 3-month income average. -/
def avgIncome3 (now : CalDate) (transactions : List Transaction) : Rat :=
  let months := (([1, 2, 3] : List Nat).filter
    (fun i => decide (0 < monthIncomes now transactions i)))
  if 0 < months.length then
    ((months.map (monthIncomes now transactions)).sum) / (months.length : Rat)
  else 0

/-- Income total realized in the current month. -/
def realizedIncome (now : CalDate) (transactions : List Transaction) : Rat :=
  ((transactions.filter (fun t =>
      t.type == TxType.income && t.date.mIdx == now.mIdx)).map (·.amount)).sum

/-- Total of monthly-flagged expense transactions of the month `i` months
before the current one (`i = 0` is the current month). -/
def recurringExpenses (now : CalDate) (transactions : List Transaction) (i : Nat) : Rat :=
  ((transactions.filter (fun t =>
      t.type == TxType.expense && t.recurrence == some Recurrence.monthly
        && t.date.mIdx == now.mIdx - (i : Int))).map (·.amount)).sum

/-- Modelled from the spec: `AnalyticsService.getMonthForecast` is absent
from the sources (only its dashboard caller is present), so this definition
follows the month-end forecast description of the specification: zero-skip
3-month averages, remaining income floored at zero, remaining expense via
the recurrence-aware hybrid when historical expense data exists and via the
daily-rate extrapolation otherwise, and a reliability flag that is low
exactly when zero historical months were found. -/
def getMonthForecast (now : CalDate) (transactions : List Transaction)
    (currentAvailableCash : Rat) : MonthForecast :=
  let avgInc := avgIncome3 now transactions
  let avgExp := averageMonthly now transactions
  let realInc := realizedIncome now transactions
  let realExp := currentMonthExpenses now transactions
  let remainingIncome := max 0 (avgInc - realInc)
  let remainingExpense :=
    if 0 < avgExp then
      let lastMonthRecurring := recurringExpenses now transactions 1
      let thisMonthRecurring := recurringExpenses now transactions 0
      let pendingRecurring := max 0 (lastMonthRecurring - thisMonthRecurring)
      let estimatedVariableTotal := max 0 (avgExp - lastMonthRecurring)
      let realizedVariable := realExp - thisMonthRecurring
      let pendingVariable := max 0 (estimatedVariableTotal - realizedVariable)
      pendingRecurring + pendingVariable
    else (realExp / (now.day : Rat)) * ((daysInMonth now.year now.month : Rat) - (now.day : Rat))
  let projectedBalance := currentAvailableCash + remainingIncome - remainingExpense
  { projectedBalance := projectedBalance
    remainingIncome := remainingIncome
    remainingExpense := remainingExpense
    isPositive := decide (0 ≤ projectedBalance)
    reliability := if histMonthsCount now transactions = 0 then .low else .high }

/-! ## Window filter (`AnalyticsService.filterTransactions`) -/

/-- The `days` argument of the window filter. -/
inductive DaysArg where
  | all
  | num (d : Int)
  | custom
deriving DecidableEq, Repr

/-- Keep the transactions at or after the start timestamp and sort them
ascending by date, the shared tail of the non-`all` branches. -/
def keepFromStart (startMs : Int) (transactions : List Transaction) :
    List Transaction :=
  List.insertionSort (fun a b => txTimeMs a ≤ txTimeMs b)
    (transactions.filter (fun t =>
      decide (startMs < txTimeMs t) || txTimeMs t == startMs))

/-- `AnalyticsService.filterTransactions` (`analytics.ts`): `all` passes the
list through; a numeric `days` compares each transaction midnight timestamp
against now minus `days` whole days, keeping the current time of day; the
custom branch starts at the custom date midnight when one is given. -/
def filterTransactions (nowMs : Int) (transactions : List Transaction)
    (days : DaysArg) (customStart : Option CalDate) : List Transaction :=
  match days with
  | .all => transactions
  | .custom =>
      match customStart with
      | some d => keepFromStart (civilDays d * 86400000) transactions
      | none => transactions
  | .num d => keepFromStart (nowMs - d * 86400000) transactions

/-- Noon of 2024-03-10 in epoch milliseconds. -/
def nowNoonMs : Int :=
  civilDays { year := 2024, month := 3, day := 10 } * 86400000 + 43200000

end Orbis

namespace Orbis

/-- C4: for every transaction list and patrimony list the summary satisfies
`availableCash + patrimonyTotal = balance` and
`balance = totalIncome - totalExpense`. -/
theorem getSummary_balance_identity (transactions : List Transaction)
    (patrimonyTransactions : List PatrimonyTransaction) :
    (getSummary transactions patrimonyTransactions).availableCash
        + (getSummary transactions patrimonyTransactions).patrimonyTotal
      = (getSummary transactions patrimonyTransactions).balance ∧
    (getSummary transactions patrimonyTransactions).balance
      = (getSummary transactions patrimonyTransactions).totalIncome
        - (getSummary transactions patrimonyTransactions).totalExpense := by
  constructor
  · simp [getSummary]
  · simp [getSummary]

/-- C5: deleting a batch removes exactly the transactions of that batch and
the batch record itself, keeps every other transaction and batch record
unchanged, and is a no-op when nothing carries the id. -/
theorem handleDeleteImportBatch_spec (batchId : String) (st : AppState) :
    (∀ t ∈ (handleDeleteImportBatch batchId st).transactions,
        t.importBatchId ≠ some batchId) ∧
    (∀ b ∈ (handleDeleteImportBatch batchId st).batches, b.id ≠ batchId) ∧
    (handleDeleteImportBatch batchId st).transactions
      = st.transactions.filter (fun t => !(t.importBatchId == some batchId)) ∧
    (∀ t ∈ st.transactions, t.importBatchId ≠ some batchId →
        t ∈ (handleDeleteImportBatch batchId st).transactions) ∧
    (∀ b ∈ st.batches, b.id ≠ batchId →
        b ∈ (handleDeleteImportBatch batchId st).batches) ∧
    (handleDeleteImportBatch batchId st).patrimony = st.patrimony ∧
    (handleDeleteImportBatch batchId st).categories = st.categories ∧
    ((∀ t ∈ st.transactions, t.importBatchId ≠ some batchId) →
      (∀ b ∈ st.batches, b.id ≠ batchId) →
      handleDeleteImportBatch batchId st = st) := by
  refine ⟨?_, ?_, rfl, ?_, ?_, rfl, rfl, ?_⟩
  · intro t ht
    simp only [handleDeleteImportBatch, List.mem_filter, Bool.not_eq_eq_eq_not,
      Bool.not_true, beq_eq_false_iff_ne, ne_eq] at ht
    exact ht.2
  · intro b hb
    simp only [handleDeleteImportBatch, List.mem_filter, Bool.not_eq_eq_eq_not,
      Bool.not_true, beq_eq_false_iff_ne, ne_eq] at hb
    exact hb.2
  · intro t ht hne
    simp only [handleDeleteImportBatch, List.mem_filter, Bool.not_eq_eq_eq_not,
      Bool.not_true, beq_eq_false_iff_ne, ne_eq]
    exact ⟨ht, hne⟩
  · intro b hb hne
    simp only [handleDeleteImportBatch, List.mem_filter, Bool.not_eq_eq_eq_not,
      Bool.not_true, beq_eq_false_iff_ne, ne_eq]
    exact ⟨hb, hne⟩
  · intro htx hbt
    have h1 : st.transactions.filter (fun t => !(t.importBatchId == some batchId))
        = st.transactions := by
      apply List.filter_eq_self.mpr
      intro t ht
      simpa using htx t ht
    have h2 : st.batches.filter (fun b => !(b.id == batchId)) = st.batches := by
      apply List.filter_eq_self.mpr
      intro b hb
      simpa using hbt b hb
    simp [handleDeleteImportBatch, h1, h2]

/-- Closed instance of the C5 theorem at a concrete state, discharging the
conditional no-op part at an id no record carries. -/
theorem handleDeleteImportBatch_spec_witness :
    (handleDeleteImportBatch "b1"
        { transactions := [], patrimony := [], categories := [],
          batches := [{ id := "b2", fileName := "f", date := "d", count := 1,
                        totalAmount := 5 }] }).batches.length = 1 := by
  have h := handleDeleteImportBatch_spec "b1"
    { transactions := [], patrimony := [], categories := [],
      batches := [{ id := "b2", fileName := "f", date := "d", count := 1,
                    totalAmount := 5 }] }
  have hnoop := h.2.2.2.2.2.2.2 (by intro t ht; simp at ht) (by
    intro b hb
    simp only [List.mem_singleton] at hb
    subst hb
    decide)
  rw [hnoop]
  rfl

/-- Relation between a reviewed candidate row and the committed transaction
built from it by `handleFinalizeImport`. -/
def committedMatches (batchId : String) (row : ParsedRawTransaction)
    (t : PendingTransaction) : Prop :=
  t.importBatchId = some batchId ∧
  t.isImported = some true ∧
  t.recurrence = some Recurrence.unique ∧
  t.originalDescription = some row.description ∧
  t.description = row.description ∧
  t.amount = row.amount ∧
  t.type = row.type ∧
  t.date = row.date ∧
  t.categoryId = (if row.categoryId = "" then "cat_10" else row.categoryId) ∧
  t.categoryId ≠ ""

theorem foldl_add_amount (l : List ParsedRawTransaction) (a : Rat) :
    l.foldl (fun acc curr => acc + curr.amount) a = a + (l.map (·.amount)).sum := by
  induction l generalizing a with
  | nil => simp
  | cons x xs ih => simp [ih, add_assoc]

theorem forall₂_committedMatches (batchId : String) (txId : Nat → String)
    (l : List ParsedRawTransaction) (n : Nat) :
    List.Forall₂ (committedMatches batchId) l
      ((List.enumFrom n l).map (fun p =>
        ({ id := txId p.1
           description := p.2.description
           amount := p.2.amount
           type := p.2.type
           date := p.2.date
           categoryId := if p.2.categoryId = "" then "cat_10" else p.2.categoryId
           importBatchId := some batchId
           isImported := some true
           originalDescription := some p.2.description
           recurrence := some Recurrence.unique } : PendingTransaction))) := by
  induction l generalizing n with
  | nil => simp [List.enumFrom]
  | cons x xs ih =>
      refine List.Forall₂.cons ?_ (ih (n + 1))
      refine ⟨rfl, rfl, rfl, rfl, rfl, rfl, rfl, rfl, rfl, ?_⟩
      by_cases hx : x.categoryId = ""
      · simp only [hx, if_pos]
        intro hc
        exact absurd hc (by decide)
      · simp [hx]

/-- C6: committing a non-empty reviewed candidate list yields one batch
record whose count is the number of candidates and whose totalAmount is the
sum of their amounts, and one committed transaction per candidate carrying
the fresh batch id, `isImported = true`, the description at commit time as
`originalDescription`, recurrence `unique`, and the `Outros` default
category id `cat_10` whenever the candidate category is empty (never an
empty category id). -/
theorem handleFinalizeImport_spec (batchId fileName dateStr : String)
    (txId : Nat → String) (parsedData : List ParsedRawTransaction)
    (h : parsedData ≠ []) :
    ∃ pr, handleFinalizeImport batchId fileName dateStr txId parsedData = some pr ∧
      pr.2.id = batchId ∧
      pr.2.fileName = fileName ∧
      pr.2.count = parsedData.length ∧
      pr.2.totalAmount = (parsedData.map (·.amount)).sum ∧
      pr.1.length = parsedData.length ∧
      List.Forall₂ (committedMatches batchId) parsedData pr.1 := by
  have hlen : ¬ parsedData.length = 0 := by
    simpa [List.length_eq_zero] using h
  simp only [handleFinalizeImport, if_neg hlen]
  refine ⟨_, rfl, rfl, rfl, rfl, ?_, ?_, ?_⟩
  · simpa using foldl_add_amount parsedData 0
  · simp [List.enum]
  · exact forall₂_committedMatches batchId txId parsedData 0

/-- Closed instance of the C6 theorem on a one-candidate list whose category
suggestion is empty. -/
theorem handleFinalizeImport_spec_witness :
    ∃ pr, handleFinalizeImport "b1" "ext.csv" "2024-05-01" (fun n => toString n)
        [{ id := "tmp", date := { year := 2024, month := 4, day := 30 },
           description := "PIX", amount := 10, type := .expense,
           categoryId := "" }] = some pr ∧
      pr.2.id = "b1" ∧
      pr.2.fileName = "ext.csv" ∧
      pr.2.count = 1 ∧
      pr.2.totalAmount =
        (([{ id := "tmp", date := { year := 2024, month := 4, day := 30 },
             description := "PIX", amount := 10, type := .expense,
             categoryId := "" }] : List ParsedRawTransaction).map (·.amount)).sum ∧
      pr.1.length = 1 ∧
      List.Forall₂ (committedMatches "b1")
        [{ id := "tmp", date := { year := 2024, month := 4, day := 30 },
           description := "PIX", amount := 10, type := .expense,
           categoryId := "" }] pr.1 :=
  handleFinalizeImport_spec "b1" "ext.csv" "2024-05-01" (fun n => toString n)
    [{ id := "tmp", date := { year := 2024, month := 4, day := 30 },
       description := "PIX", amount := 10, type := .expense, categoryId := "" }]
    (List.cons_ne_nil _ _)

/-- C7: a backup document whose marker is not the fixed string `ORBIS` or
whose transactions field is not an array is rejected with the distinct
`Invalid format` error, and the persisted state is returned unchanged. -/
theorem importData_rejects (doc : BackupDoc) (st : AppState)
    (h : doc.app ≠ some "ORBIS" ∨ doc.transactions = none) :
    importData doc st = (some "Invalid format", st) := by
  rcases htx : doc.transactions with _ | txs
  · simp [importData, htx]
  · rcases happ : doc.app with _ | m
    · simp [importData, htx, happ]
    · have hm : ¬ m = "ORBIS" := by
        rcases h with h | h
        · intro he
          exact h (by rw [happ, he])
        · rw [htx] at h
          exact absurd h (by simp)
      simp [importData, htx, happ, hm]

/-- Closed instance of the C7 theorem: a document with no marker and an
array transactions field is rejected and an empty state is untouched. -/
theorem importData_rejects_witness :
    importData
        { app := none, transactions := some [], patrimony := none,
          batches := none, categories := none }
        { transactions := [], patrimony := [], categories := [], batches := [] }
      = (some "Invalid format",
         { transactions := [], patrimony := [], categories := [], batches := [] }) :=
  importData_rejects
    { app := none, transactions := some [], patrimony := none,
      batches := none, categories := none }
    { transactions := [], patrimony := [], categories := [], batches := [] }
    (Or.inl (by simp))

/-- C1: of the three spec examples, the European string gives 1234.56 and
the bare-comma string gives 45.90, but the US string `1,234.56` keeps its
thousands comma, the float parse stops at the comma, and the parsed value is
1 rather than the 1234.56 the claim states. -/
theorem parseCSVAmount_eval :
    parseCSVAmount "1.234,56" = some (123456 / 100 : Rat) ∧
    parseCSVAmount "45,90" = some (4590 / 100 : Rat) ∧
    parseCSVAmount "1,234.56" = some 1 ∧
    parseCSVAmount "1,234.56" ≠ some (123456 / 100 : Rat) := by
  have h1 : parseCSVAmount "1.234,56"
      = some ((digitsToNat "1234".data : Rat)
          + (digitsToNat "56".data : Rat) / 10 ^ (2 : Nat)) := rfl
  have h2 : parseCSVAmount "45,90"
      = some ((digitsToNat "45".data : Rat)
          + (digitsToNat "90".data : Rat) / 10 ^ (2 : Nat)) := rfl
  have h3 : parseCSVAmount "1,234.56"
      = some ((digitsToNat "1".data : Rat)
          + (digitsToNat ([] : List Char) : Rat) / 10 ^ (0 : Nat)) := rfl
  have d1 : digitsToNat "1234".data = 1234 := by decide
  have d2 : digitsToNat "56".data = 56 := by decide
  have d3 : digitsToNat "45".data = 45 := by decide
  have d4 : digitsToNat "90".data = 90 := by decide
  have d5 : digitsToNat "1".data = 1 := by decide
  have d6 : digitsToNat ([] : List Char) = 0 := by decide
  have e3 : parseCSVAmount "1,234.56" = some 1 := by
    rw [h3, d5, d6]
    norm_num
  refine ⟨?_, ?_, e3, ?_⟩
  · rw [h1, d1, d2]
    norm_num
  · rw [h2, d3, d4]
    norm_num
  · rw [e3]
    intro hc
    rw [Option.some_inj] at hc
    norm_num at hc

/-- C2: running the category suggestion on a history stored in ascending
`createdAt` order returns the matching category, but the caller-provided
array is left reordered by the in-place sort, against the no-side-effect
claim. -/
theorem suggestCategory_mutates_history :
    (suggestCategoryRun "abc" [txEarlier, txLater]).1 = some "cat_4" ∧
    (suggestCategoryRun "abc" [txEarlier, txLater]).2 = [txLater, txEarlier] ∧
    (suggestCategoryRun "abc" [txEarlier, txLater]).2 ≠ [txEarlier, txLater] := by
  refine ⟨by decide, by decide, by decide⟩

/-- C8: whenever the overspend rule fires (positive 3-month average and
projection above 120 percent of it), the cascade returns that rule's warning
output even when the patrimony-growth trigger (a deposit this month) also
holds; later rules are not consulted. -/
theorem getSmartInsight_rule1_overrides_patrimony
    (dailyTip : String) (formatBRL : Rat → String) (now : CalDate)
    (transactions : List Transaction)
    (patrimonyTransactions : List PatrimonyTransaction)
    (h1 : 0 < averageMonthly now transactions)
    (h2 : averageMonthly now transactions * 1.2 < projection now transactions)
    (h3 : 0 < patrimonyDeposits now patrimonyTransactions) :
    getSmartInsight dailyTip formatBRL now transactions patrimonyTransactions =
      { text := "Seus gastos estão "
          ++ toString (jsRound
              ((projection now transactions / averageMonthly now transactions - 1) * 100))
          ++ "% acima da média habitual."
        status := .warning } := by
  simp only [getSmartInsight]
  rw [if_pos ⟨h1, h2⟩]

/-- Closed instance of the C8 theorem: one month of history averaging 100, a
current projection of 3100 and a deposit of 50 this month give rule 1's
warning text. -/
theorem getSmartInsight_rule1_witness :
    0 < averageMonthly nowMay [expenseNow, expensePrev] ∧
    averageMonthly nowMay [expenseNow, expensePrev] * 1.2
      < projection nowMay [expenseNow, expensePrev] ∧
    0 < patrimonyDeposits nowMay [depositNow] ∧
    getSmartInsight "dica" (fun _ => "") nowMay [expenseNow, expensePrev]
        [depositNow] =
      { text := "Seus gastos estão 3000% acima da média habitual."
        status := .warning } := by
  have havg : averageMonthly nowMay [expenseNow, expensePrev] = 100 := by
    simp [averageMonthly, histMonthsCount, historicalTotal, monthExpenses,
      nowMay, expenseNow, expensePrev, CalDate.mIdx]
  have hproj : projection nowMay [expenseNow, expensePrev] = 3100 := by
    simp [projection, currentMonthExpenses, nowMay, expenseNow, expensePrev,
      CalDate.mIdx, daysInMonth]
    norm_num
  have hdep : patrimonyDeposits nowMay [depositNow] = 50 := by
    simp [patrimonyDeposits, nowMay, depositNow, CalDate.mIdx]
  have h1 : 0 < averageMonthly nowMay [expenseNow, expensePrev] := by
    rw [havg]
    norm_num
  have h2 : averageMonthly nowMay [expenseNow, expensePrev] * 1.2
      < projection nowMay [expenseNow, expensePrev] := by
    rw [havg, hproj]
    norm_num
  have h3 : 0 < patrimonyDeposits nowMay [depositNow] := by
    rw [hdep]
    norm_num
  refine ⟨h1, h2, h3, ?_⟩
  rw [getSmartInsight_rule1_overrides_patrimony "dica" (fun _ => "") nowMay
    [expenseNow, expensePrev] [depositNow] h1 h2 h3, havg, hproj]
  have hv : ((3100 : Rat) / 100 - 1) * 100 = 3000 := by norm_num
  have hr : jsRound (((3100 : Rat) / 100 - 1) * 100) = 3000 := by
    rw [hv]
    unfold jsRound
    rw [Int.floor_eq_iff]
    constructor
    · norm_num
    · norm_num
  rw [hr]
  rfl

/-- C3: with no expense in any of the three months preceding the current
one, the forecast reliability is low and the remaining expense is the
daily-rate extrapolation, never the recurrence-aware hybrid. -/
theorem getMonthForecast_zero_history (now : CalDate)
    (transactions : List Transaction) (cash : Rat)
    (h : ∀ t ∈ transactions, t.type = TxType.expense →
        t.date.mIdx ≠ now.mIdx - 1 ∧ t.date.mIdx ≠ now.mIdx - 2 ∧
          t.date.mIdx ≠ now.mIdx - 3) :
    (getMonthForecast now transactions cash).reliability = .low ∧
    (getMonthForecast now transactions cash).remainingExpense
      = (currentMonthExpenses now transactions / (now.day : Rat))
        * ((daysInMonth now.year now.month : Rat) - (now.day : Rat)) := by
  have hm : ∀ i : Nat, i = 1 ∨ i = 2 ∨ i = 3 →
      monthExpenses now transactions i = 0 := by
    intro i hi
    unfold monthExpenses
    have hfe : transactions.filter (fun t =>
        t.type == TxType.expense && t.date.mIdx == now.mIdx - (i : Int)) = [] := by
      apply List.filter_eq_nil_iff.mpr
      intro t ht
      simp only [Bool.and_eq_true, beq_iff_eq, not_and]
      intro hty
      obtain ⟨n1, n2, n3⟩ := h t ht hty
      rcases hi with rfl | rfl | rfl
      · simpa using n1
      · simpa using n2
      · simpa using n3
    rw [hfe]
    simp
  have hcount : histMonthsCount now transactions = 0 := by
    unfold histMonthsCount
    have hm1 := hm 1 (Or.inl rfl)
    have hm2 := hm 2 (Or.inr (Or.inl rfl))
    have hm3 := hm 3 (Or.inr (Or.inr rfl))
    simp [hm1, hm2, hm3]
  have havg : averageMonthly now transactions = 0 := by
    unfold averageMonthly
    rw [hcount]
    simp
  constructor
  · simp [getMonthForecast, hcount]
  · simp [getMonthForecast, havg, hcount]

/-- Closed instance of the C3 theorem: a single current-month expense and no
historical months give a low-reliability daily-rate forecast. -/
theorem getMonthForecast_zero_history_witness :
    (∀ t ∈ [expenseNow], t.type = TxType.expense →
        t.date.mIdx ≠ nowMay.mIdx - 1 ∧ t.date.mIdx ≠ nowMay.mIdx - 2 ∧
          t.date.mIdx ≠ nowMay.mIdx - 3) ∧
    ((getMonthForecast nowMay [expenseNow] 0).reliability = .low ∧
     (getMonthForecast nowMay [expenseNow] 0).remainingExpense
       = (currentMonthExpenses nowMay [expenseNow] / (nowMay.day : Rat))
         * ((daysInMonth nowMay.year nowMay.month : Rat) - (nowMay.day : Rat))) :=
  ⟨by decide, getMonthForecast_zero_history nowMay [expenseNow] 0 (by decide)⟩

/-- C9: a transaction dated exactly on the boundary day (today minus the
numeric window) is dropped by the window filter when the current time is not
midnight, against the inclusive-boundary claim, while the following day is
kept. -/
theorem filterTransactions_boundary_day_excluded :
    civilDays txBoundary.date
      = civilDays { year := 2024, month := 3, day := 10 } - 5 ∧
    filterTransactions nowNoonMs [txBoundary] (.num 5) none = [] ∧
    filterTransactions nowNoonMs [txDayAfter] (.num 5) none = [txDayAfter] := by
  refine ⟨by decide, by decide, by decide⟩

/-- C10: confirming an import batch is append-only: the prior transaction
and batch lists are preserved as prefixes, the new transactions are exactly
the stamped candidates sharing one `createdAt`, and the batch list grows by
exactly the one new record. -/
theorem handleImportTransactions_append_only (now : Int)
    (newTransactions : List PendingTransaction) (batch : ImportBatch)
    (st : AppState) :
    (handleImportTransactions now newTransactions batch st).transactions
      = st.transactions ++ newTransactions.map (PendingTransaction.stamp now) ∧
    (∀ t ∈ newTransactions.map (PendingTransaction.stamp now), t.createdAt = now) ∧
    (handleImportTransactions now newTransactions batch st).transactions.length
      = st.transactions.length + newTransactions.length ∧
    (handleImportTransactions now newTransactions batch st).batches
      = st.batches ++ [batch] ∧
    (handleImportTransactions now newTransactions batch st).batches.length
      = st.batches.length + 1 ∧
    (handleImportTransactions now newTransactions batch st).patrimony
      = st.patrimony ∧
    (handleImportTransactions now newTransactions batch st).categories
      = st.categories := by
  refine ⟨rfl, ?_, ?_, rfl, ?_, rfl, rfl⟩
  · intro t ht
    simp only [List.mem_map] at ht
    obtain ⟨p, _, hp⟩ := ht
    rw [show t = PendingTransaction.stamp now p from hp.symm]
    rfl
  · simp [handleImportTransactions]
  · simp [handleImportTransactions]

end Orbis
